import Mathlib

/-!
Verification of the pykilosort sorter adapter
(`spikeinterface/sorters/pykilosort/pykilosort.py`).

The adapter is a stateless class with four lifecycle hooks (parameter
validation, input staging, invocation, result retrieval), two module-level
parameter tables, and an import-time availability flag.  This file embeds
those pieces shallowly: the dict literals become token-level lists (so the
missing comma separators in the source text are visible), the hooks become
functions over an explicit `Recording` record and a filesystem map, Python
exceptions become an `Except PyError` result, and the module-level
`try: import pykilosort` block becomes a function from the interpreter
environment to the module state.
-/

/-- A Python literal value as it appears in the adapter's parameter tables.
Floats are carried as rationals (the tables only store them; no float
arithmetic happens in the adapter). -/
inductive PyVal where
  | int : Int → PyVal
  | float : ℚ → PyVal
  | str : String → PyVal
  | bool : Bool → PyVal
  | noneVal : PyVal
  | list : List PyVal → PyVal

/-- One `key : value` entry of a Python dict literal exactly as written in
the source text; `sep` records whether a comma separator follows the entry
(in the source, the entries `spkTh` of `_default_params` and
`templateScaling` of `_params_description` are not followed by one). -/
structure DictItem where
  key : String
  value : PyVal
  sep : Bool

/-- A dict literal is well-formed as written when every entry other than the
last is followed by a comma separator (a trailing comma on the last entry is
optional in Python). -/
def wellFormedDict (items : List DictItem) : Bool :=
  items.dropLast.all (fun it => it.sep)

/-- `PyKilosortSorter._default_params`, token by token from the source.
Line 57 of the source reads `"spkTh":-6` with no comma before the
`"reorder"` entry on line 58, recorded here as `sep := false`. -/
def _default_params : List DictItem := [
  ⟨"nfilt_factor", .int 8, true⟩,
  ⟨"AUCsplit", .float (85/100), true⟩,
  ⟨"nskip", .int 5, true⟩,
  ⟨"low_memory", .bool false, true⟩,
  ⟨"seed", .int 42, true⟩,
  ⟨"preprocessing_function", .str ("kilosort2"), true⟩,
  ⟨"save_drift_spike_detections", .bool false, true⟩,
  ⟨"perform_drift_registration", .bool false, true⟩,
  ⟨"do_whitening", .bool true, true⟩,
  ⟨"fs", .float 30000, true⟩,
  ⟨"probe", .noneVal, true⟩,
  ⟨"n_channels", .int 385, true⟩,
  ⟨"data_dtype", .str ("int16"), true⟩,
  ⟨"save_temp_files", .bool true, true⟩,
  ⟨"fshigh", .float 300, true⟩,
  ⟨"fslow", .noneVal, true⟩,
  ⟨"minfr_goodchannels", .float (1/10), true⟩,
  ⟨"genericSpkTh", .float 8, true⟩,
  ⟨"nblocks", .int 5, true⟩,
  ⟨"output_filename", .noneVal, true⟩,
  ⟨"overwrite", .bool true, true⟩,
  ⟨"sig_datashift", .float 20, true⟩,
  ⟨"stable_mode", .bool true, true⟩,
  ⟨"deterministic_mode", .bool true, true⟩,
  ⟨"datashift", .noneVal, true⟩,
  ⟨"Th", .list [.int 10, .int 4], true⟩,
  ⟨"ThPre", .int 8, true⟩,
  ⟨"lam", .int 10, true⟩,
  ⟨"minFR", .float (1/50), true⟩,
  ⟨"momentum", .list [.int 20, .int 400], true⟩,
  ⟨"sigmaMask", .int 30, true⟩,
  ⟨"spkTh", .int (-6), false⟩,
  ⟨"reorder", .int 1, true⟩,
  ⟨"nSkipCov", .int 25, true⟩,
  ⟨"ntbuff", .int 64, true⟩,
  ⟨"whiteningRange", .int 32, true⟩,
  ⟨"scaleproc", .int 200, true⟩,
  ⟨"nPCs", .int 3, true⟩,
  ⟨"nt0", .int 61, true⟩,
  ⟨"nup", .int 10, true⟩,
  ⟨"sig", .int 1, true⟩,
  ⟨"gain", .int 1, true⟩,
  ⟨"templateScaling", .float 20, true⟩,
  ⟨"loc_range", .list [.int 5, .int 4], true⟩,
  ⟨"long_range", .list [.int 30, .int 6], true⟩]

/-- `PyKilosortSorter._params_description`, token by token from the source.
Line 116 of the source reads `"templateScaling":None` with no comma before
the `"loc_range"` entry on line 117, recorded here as `sep := false`. -/
def _params_description : List DictItem := [
  ⟨"nfilt_factor", .int 8, true⟩,
  ⟨"AUCsplit", .str ("splitting a cluster at the end requires at least this much isolation for each sub-cluster (max=1)"), true⟩,
  ⟨"nskip", .int 5, true⟩,
  ⟨"low_memory", .bool false, true⟩,
  ⟨"seed", .str ("seed for deterministic output"), true⟩,
  ⟨"preprocessing_function", .str ("pre-processing function used choices are \"kilosort2\" or \"destriping\""), true⟩,
  ⟨"save_drift_spike_detections", .str ("save detected spikes in drift correction"), true⟩,
  ⟨"perform_drift_registration", .str ("Estimate electrode drift and apply registration"), true⟩,
  ⟨"do_whitening", .str ("whether or not to whiten data, if disabled channels are individually z-scored"), true⟩,
  ⟨"fs", .str ("sample rate"), true⟩,
  ⟨"probe", .str ("data type of raw data"), true⟩,
  ⟨"n_channels", .str ("number of channels in the data recording"), true⟩,
  ⟨"data_dtype", .str ("data type of raw data"), true⟩,
  ⟨"save_temp_files", .str ("keep temporary files created while running"), true⟩,
  ⟨"fshigh", .str ("high pass filter frequency"), true⟩,
  ⟨"fslow", .str ("low pass filter frequency"), true⟩,
  ⟨"minfr_goodchannels", .str ("minimum firing rate on a \x27good\x27 channel (0 to skip)"), true⟩,
  ⟨"genericSpkTh", .str ("threshold for crossings with generic templates"), true⟩,
  ⟨"nblocks", .str ("number of blocks used to segment the probe when tracking drift, 0 == don\x27t track, 1 == rigid, > 1 == non-rigid"), true⟩,
  ⟨"output_filename", .str ("optionally save registered data to a new binary file"), true⟩,
  ⟨"overwrite", .str ("overwrite proc file with shifted data"), true⟩,
  ⟨"sig_datashift", .str ("sigma for the Gaussian process smoothing"), true⟩,
  ⟨"stable_mode", .str ("make output more stable"), true⟩,
  ⟨"deterministic_mode", .str ("make output deterministic by sorting spikes before applying kernels"), true⟩,
  ⟨"datashift", .str ("parameters for \x27datashift\x27 drift correction. not required"), true⟩,
  ⟨"Th", .str ("threshold on projections (like in Kilosort1, can be different for last pass like [10 4])"), true⟩,
  ⟨"ThPre", .str ("threshold crossings for pre-clustering (in PCA projection space)"), true⟩,
  ⟨"lam", .str ("how important is the amplitude penalty (like in Kilosort1, 0 means not used, 10 is average, 50 is a lot)"), true⟩,
  ⟨"minFR", .str (" minimum spike rate (Hz), if a cluster falls below this for too long it gets removed"), true⟩,
  ⟨"momentum", .str ("number of samples to average over (annealed from first to second value)"), true⟩,
  ⟨"sigmaMask", .str ("spatial constant in um for computing residual variance of spike"), true⟩,
  ⟨"spkTh", .str ("spike threshold in standard deviations"), true⟩,
  ⟨"reorder", .str ("whether to reorder batches for drift correction."), true⟩,
  ⟨"nSkipCov", .str ("compute whitening matrix from every nth batch"), true⟩,
  ⟨"ntbuff", .str ("samples of symmetrical buffer for whitening and spike detection; Must be multiple of 32 + ntbuff. This is the batch size (try decreasing if out of memory)."), true⟩,
  ⟨"whiteningRange", .str ("number of channels to use for whitening each channel"), true⟩,
  ⟨"scaleproc", .str ("int16 scaling of whitened data"), true⟩,
  ⟨"nPCs", .str ("how many PCs to project the spikes into"), true⟩,
  ⟨"nt0", .noneVal, true⟩,
  ⟨"nup", .noneVal, true⟩,
  ⟨"sig", .noneVal, true⟩,
  ⟨"gain", .noneVal, true⟩,
  ⟨"templateScaling", .noneVal, false⟩,
  ⟨"loc_range", .noneVal, true⟩,
  ⟨"long_range", .noneVal, true⟩]

/-- Python exceptions the adapter's hooks can surface. -/
inductive PyError where
  | assertionError : PyError
  | nameError : String → PyError
  | valueError : String → PyError
  | fileNotFound : String → PyError
  | indexError : String → PyError
  deriving DecidableEq

/-- The framework's probe object. The adapter only retrieves it and discards
it, so it is modelled as an opaque token. -/
inductive Probe where
  | mk : Probe
  deriving DecidableEq

/-- The recording object as the adapter observes it: segment count, channel
count, the 2-D channel-location array (N rows of (x, y), carried as
rationals since the adapter only copies the columns), sampling frequency,
dtype name and per-sample byte width, sample count per channel, whether the
(reloaded) object is a `BinaryRecordingExtractor`, its
`_kwargs['file_paths']` list, and an optionally attached probe. -/
structure Recording where
  numSegments : Nat
  numChannels : Nat
  channelLocations : List (ℚ × ℚ)
  samplingFrequency : ℚ
  dtype : String
  dtypeWidth : Nat
  numSamples : Nat
  isBinary : Bool
  filePaths : List String
  probe : Option Probe

/-- Python's `Path` division operator `a / b`. -/
def pathJoin (a b : String) : String := a ++ "/" ++ b

/-- Modelled from the spec: the framework `BaseRecording.get_probe`
(spikeinterface.core, not under src/) returns the attached probe and raises
when no probe is attached; per spec section 3, the recording exposes its 2-D
channel geometry through this attached probe. -/
def Recording.get_probe (r : Recording) : Except PyError Probe :=
  match r.probe with
  | some p => Except.ok p
  | none => Except.error (PyError.valueError ("no probe attached"))

/-- What `recording.save(format='binary', folder=...)` leaves on disk:
the target folder, the size in bytes of the staged contiguous binary file,
and the name of the serialized recording description placed next to it. -/
structure BinaryCopy where
  folder : String
  binSizeBytes : Nat
  descriptionName : String
  deriving DecidableEq

/-- Modelled from the spec: the framework `recording.save` (not under src/)
persists a single-segment recording as one contiguous binary file of
channel_count x sample_count x dtype_width bytes into the given folder,
together with a serialized recording description
(`spikeinterface_recording.json`); spec sections 4.1, 6 and 8.1. -/
def Recording.save (r : Recording) (folder : String) : BinaryCopy :=
  { folder := folder,
    binSizeBytes := r.numChannels * r.numSamples * r.dtypeWidth,
    descriptionName := "spikeinterface_recording.json" }

/-- `PyKilosortSorter.requires_locations` (source line 21). -/
def requires_locations : Bool := false

/-- `PyKilosortSorter.sorter_name` (source line 20). -/
def sorter_name : String := "pykilosort"

/-- `PyKilosortSorter.handle_multi_segment` (source line 132). -/
def handle_multi_segment : Bool := false

/-- `PyKilosortSorter._check_params` (source lines 142-144): returns the
parameter mapping unchanged, whatever its type, ignoring the recording and
the output folder. -/
def _check_params {ρ φ π : Type} (recording : ρ) (output_folder : φ) (params : π) : π :=
  params

/-- `PyKilosortSorter._setup_recording` (source lines 146-151): first calls
`recording.get_probe()` and discards the result, then saves the recording in
binary format into `output_folder / 'bin_folder'`. -/
def _setup_recording (recording : Recording) (output_folder : String) :
    Except PyError BinaryCopy :=
  match recording.get_probe with
  | Except.error e => Except.error e
  | Except.ok _probe => Except.ok (recording.save (pathJoin output_folder ("bin_folder")))

/-- Modelled from the spec: the framework `load_extractor` (not under src/)
reloads a recording from a serialized recording description at the given
path and fails when nothing loadable is there (spec sections 3 and 6). The
filesystem is passed explicitly as a map from path to content. -/
def load_extractor (fs : String → Option Recording) (path : String) :
    Except PyError Recording :=
  match fs path with
  | some r => Except.ok r
  | none => Except.error (PyError.fileNotFound path)

/-- The transient probe descriptor (`ks_probe`, a pykilosort `Bunch`) built
during invocation, source lines 168-173. -/
structure KsProbe where
  NchanTOT : Nat
  chanMap : List Nat
  kcoords : List ℚ
  xc : List ℚ
  yc : List ℚ
  deriving DecidableEq

/-- The argument tuple the adapter hands to the external `run` entry point
(source lines 175-184).  The external call itself is opaque; reaching it is
represented by producing this record. -/
structure RunCall (α : Type) where
  dat_path : String
  params : α
  probe : KsProbe
  dir_path : String
  n_channels : Nat
  dtype : String
  sample_rate : ℚ

/-- `PyKilosortSorter._run_from_folder` (source lines 153-184): reloads the
recording from `output_folder / 'spikeinterface_recording.json'`, asserts it
is a `BinaryRecordingExtractor` with exactly one segment, takes
`_kwargs['file_paths'][0]`, builds the transient probe descriptor (identity
channel map, uniform group label 1, X and Y columns of the channel-location
array) and reaches the external `run` call with the assembled arguments. -/
def _run_from_folder {α : Type} (fs : String → Option Recording)
    (output_folder : String) (params : α) : Except PyError (RunCall α) :=
  match load_extractor fs (pathJoin output_folder ("spikeinterface_recording.json")) with
  | Except.error e => Except.error e
  | Except.ok recording =>
    if recording.isBinary then
      if recording.numSegments = 1 then
        match recording.filePaths with
        | [] => Except.error (PyError.indexError ("file_paths"))
        | dat_path :: _ =>
          Except.ok
            { dat_path := dat_path,
              params := params,
              probe :=
                { NchanTOT := recording.numChannels,
                  chanMap := List.range recording.numChannels,
                  kcoords := List.replicate recording.numChannels 1,
                  xc := recording.channelLocations.map Prod.fst,
                  yc := recording.channelLocations.map Prod.snd },
              dir_path := output_folder,
              n_channels := recording.numChannels,
              dtype := recording.dtype,
              sample_rate := recording.samplingFrequency }
      else Except.error PyError.assertionError
    else Except.error PyError.assertionError

/-- The state of the Python interpreter environment at some moment: whether
`import pykilosort` succeeds, and the version string the package reports
when it does. -/
structure Env where
  pykilosortImportable : Bool
  pykilosortVersion : String
  deriving DecidableEq

/-- The module's state after the top-level `try: import pykilosort` block
(source lines 8-14): `HAVE_PYKILOSORT` records whether the import
succeeded, and the name `pykilosort` is bound (carrying its version) only
when it did. -/
structure ModuleState where
  HAVE_PYKILOSORT : Bool
  pykilosortBound : Option String
  deriving DecidableEq

/-- Module initialization (source lines 8-14), a function of the
environment at import time. -/
def moduleInit (env : Env) : ModuleState :=
  if env.pykilosortImportable then
    { HAVE_PYKILOSORT := true, pykilosortBound := some env.pykilosortVersion }
  else
    { HAVE_PYKILOSORT := false, pykilosortBound := none }

/-- `PyKilosortSorter.is_installed` (source lines 134-136): returns the
module-level flag `HAVE_PYKILOSORT`. It takes no environment argument
because the source method consults nothing but the module state. -/
def is_installed (st : ModuleState) : Bool :=
  st.HAVE_PYKILOSORT

/-- The availability check as the spec's words describe it (spec sections
4.1 and 9): a capability probe of the environment at call time. Stated
separately from `is_installed` to compare the source's behavior against the
spec's. -/
def is_installed_spec (envAtCall : Env) : Bool :=
  envAtCall.pykilosortImportable

/-- `PyKilosortSorter.get_sorter_version` (source lines 138-140): evaluates
`pykilosort.__version__`; when the import failed the name `pykilosort` is
unbound and the lookup raises a NameError. -/
def get_sorter_version (st : ModuleState) : Except PyError String :=
  match st.pykilosortBound with
  | some v => Except.ok v
  | none => Except.error (PyError.nameError ("pykilosort"))

/-- The names bound at module level in `pykilosort.py`: the four imports of
lines 1-6, the conditional `pykilosort`, `Bunch`, `add_default_handler` and
`run` of lines 8-14, the flag, and the class itself. -/
def moduleGlobalNames (pykilosortImportable : Bool) : List String :=
  ["Path", "np", "load_extractor", "BinaryRecordingExtractor", "read_kilosort",
   "BaseSorter"]
  ++ (if pykilosortImportable then
        ["pykilosort", "Bunch", "add_default_handler", "run"]
      else [])
  ++ ["HAVE_PYKILOSORT", "PyKilosortSorter"]

/-- The constructor call a successful result retrieval would make: the name
the source applies and the `folder_path` keyword argument it passes. -/
structure SortingReaderCall where
  constructorName : String
  folder_path : String
  deriving DecidableEq

/-- `PyKilosortSorter._get_result_from_folder` (source lines 186-189): the
body applies the name `KiloSortSortingExtractor` to
`output_folder / 'output'`. Python first resolves the name among the
module's globals; an unbound name raises a NameError before any call is
made. -/
def _get_result_from_folder (pykilosortImportable : Bool) (output_folder : String) :
    Except PyError SortingReaderCall :=
  if (moduleGlobalNames pykilosortImportable).contains ("KiloSortSortingExtractor") then
    Except.ok
      { constructorName := "KiloSortSortingExtractor",
        folder_path := pathJoin output_folder ("output") }
  else Except.error (PyError.nameError ("KiloSortSortingExtractor"))

/-- A well-shaped concrete recording used to instantiate the theorems: one
segment, two channels at (0,0) and (0,20), int16 samples, 1000 samples per
channel, reloadable as a single-file binary recording, with a probe
attached. -/
def demoRecording : Recording :=
  { numSegments := 1,
    numChannels := 2,
    channelLocations := [(0, 0), (0, 20)],
    samplingFrequency := 30000,
    dtype := "int16",
    dtypeWidth := 2,
    numSamples := 1000,
    isBinary := true,
    filePaths := ["out/bin_folder/traces_cached_seg0.raw"],
    probe := some Probe.mk }

/-- A two-segment variant of `demoRecording`. -/
def multiSegRecording : Recording :=
  { demoRecording with numSegments := 2 }

/-- A variant of `demoRecording` with no probe attached. -/
def probelessRecording : Recording :=
  { demoRecording with probe := none }

/-- A filesystem whose only recording description sits inside the staging
subfolder, at `out/bin_folder/spikeinterface_recording.json` — the location
the claim about reloading names. -/
def binFolderOnlyFs : String → Option Recording := fun p =>
  if p = "out/bin_folder/spikeinterface_recording.json" then some demoRecording
  else none

/-- A filesystem with the recording description at the top level of the
output folder, `out/spikeinterface_recording.json` — the location the source
actually reads. -/
def rootJsonFs : String → Option Recording := fun p =>
  if p = "out/spikeinterface_recording.json" then some demoRecording
  else none

/-- A filesystem holding a two-segment recording at the top-level
description path. -/
def multiSegFs : String → Option Recording := fun p =>
  if p = "out/spikeinterface_recording.json" then some multiSegRecording
  else none

/-- Claim C1: the default parameter table and the parameter description
table, as written in the source, are not well-formed dict literals: the
separator is missing exactly after the `spkTh` entry (index 31, followed by
`reorder` at index 32) of the defaults and exactly after the
`templateScaling` entry (index 42, followed by `loc_range` at index 43) of
the descriptions. -/
theorem c1_malformed_parameter_tables :
    wellFormedDict _default_params = false ∧
    wellFormedDict _params_description = false ∧
    (_default_params.filter (fun it => !it.sep)).map DictItem.key = ["spkTh"] ∧
    (_params_description.filter (fun it => !it.sep)).map DictItem.key = ["templateScaling"] ∧
    (_default_params[31]?).map DictItem.key = some ("spkTh") ∧
    (_default_params[32]?).map DictItem.key = some ("reorder") ∧
    (_params_description[42]?).map DictItem.key = some ("templateScaling") ∧
    (_params_description[43]?).map DictItem.key = some ("loc_range") :=
  ⟨rfl, rfl, rfl, rfl, rfl, rfl, rfl, rfl⟩

/-- Claim C2 (code bug): result retrieval never returns a reader handle —
the body applies the name `KiloSortSortingExtractor`, which is defined
nowhere in the module (line 5 imports `read_kilosort` instead,
and the `read_kilosort` call is commented out on line 188), so every call
raises a NameError, whether or not pykilosort is importable. -/
theorem c2_result_retrieval_raises_name_error (pykilosortImportable : Bool)
    (output_folder : String) :
    _get_result_from_folder pykilosortImportable output_folder =
      Except.error (PyError.nameError ("KiloSortSortingExtractor")) := by
  cases pykilosortImportable <;> rfl

/-- Claim C3 (counterexample): on a filesystem whose only recording
description — a perfectly valid single-segment binary recording — sits at
`out/bin_folder/spikeinterface_recording.json`, the invocation hook does not
reload it: it fails looking for `out/spikeinterface_recording.json`. So the
hook does not reload from inside the staging subfolder `bin_folder`. -/
theorem c3_reload_not_from_bin_folder :
    binFolderOnlyFs ("out/bin_folder/spikeinterface_recording.json") = some demoRecording ∧
    demoRecording.isBinary = true ∧
    demoRecording.numSegments = 1 ∧
    _run_from_folder binFolderOnlyFs ("out") (0 : Nat) =
      Except.error (PyError.fileNotFound ("out/spikeinterface_recording.json")) :=
  ⟨rfl, rfl, rfl, rfl⟩

/-- Claim C3 (amended): the invocation hook reloads the recording from
`<output_folder>/spikeinterface_recording.json` at the top level of the
output folder, not from inside `bin_folder`: its result depends only on the
filesystem's content at that top-level path. -/
theorem c3_reload_uses_top_level_json {α : Type}
    (fs1 fs2 : String → Option Recording) (output_folder : String) (params : α)
    (h : fs1 (pathJoin output_folder ("spikeinterface_recording.json")) =
         fs2 (pathJoin output_folder ("spikeinterface_recording.json"))) :
    _run_from_folder fs1 output_folder params =
      _run_from_folder fs2 output_folder params := by
  unfold _run_from_folder load_extractor
  rw [h]

/-- Claim C3 witness: a filesystem whose description file sits only inside
`bin_folder` is, for the invocation hook, indistinguishable from an empty
filesystem. -/
theorem c3_reload_uses_top_level_json_witness :
    _run_from_folder binFolderOnlyFs ("out") (0 : Nat) =
      _run_from_folder (fun _ => (none : Option Recording)) ("out") (0 : Nat) :=
  c3_reload_uses_top_level_json binFolderOnlyFs (fun _ => none) ("out") 0 rfl

/-- Claim C4: when the reloaded recording is not the single-file binary
representation or is multi-segment, the invocation hook stops with an
assertion error; the external `run` call (represented by an `Except.ok`
result carrying the assembled arguments) is never reached. -/
theorem c4_assertion_before_run {α : Type} (fs : String → Option Recording)
    (output_folder : String) (params : α) (rec : Recording)
    (hload : fs (pathJoin output_folder ("spikeinterface_recording.json")) = some rec)
    (hbad : rec.isBinary = false ∨ rec.numSegments ≠ 1) :
    _run_from_folder fs output_folder params = Except.error PyError.assertionError := by
  unfold _run_from_folder load_extractor
  rw [hload]
  rcases hbad with h | h
  · simp [h]
  · cases hb : rec.isBinary <;> simp [hb, h]

/-- Claim C4 witness: a two-segment binary recording reloaded from the
description path makes the invocation hook fail with the assertion error. -/
theorem c4_assertion_before_run_witness :
    _run_from_folder multiSegFs ("out") (0 : Nat) =
      Except.error PyError.assertionError :=
  c4_assertion_before_run multiSegFs ("out") 0 multiSegRecording rfl
    (Or.inr (by decide))

/-- Claim C5: for a reloaded single-segment binary recording with N channels
and channel-location rows [(x0,y0),(x1,y1),...], the transient probe
descriptor handed to the external run has NchanTOT = N, chanMap =
[0,...,N-1], xc = the first coordinates, yc = the second coordinates, and
kcoords the uniform vector of the group label 1 of length N. -/
theorem c5_probe_descriptor_fields {α : Type} (fs : String → Option Recording)
    (output_folder : String) (params : α) (rec : Recording)
    (dat : String) (rest : List String)
    (hload : fs (pathJoin output_folder ("spikeinterface_recording.json")) = some rec)
    (hbin : rec.isBinary = true)
    (hseg : rec.numSegments = 1)
    (hpaths : rec.filePaths = dat :: rest)
    (hN : rec.numChannels = rec.channelLocations.length) :
    ∃ call : RunCall α,
      _run_from_folder fs output_folder params = Except.ok call ∧
      call.probe.NchanTOT = rec.numChannels ∧
      call.probe.chanMap = List.range rec.numChannels ∧
      call.probe.xc = rec.channelLocations.map Prod.fst ∧
      call.probe.yc = rec.channelLocations.map Prod.snd ∧
      call.probe.kcoords = List.replicate rec.numChannels 1 := by
  refine ⟨{ dat_path := dat, params := params,
            probe := { NchanTOT := rec.numChannels,
                       chanMap := List.range rec.numChannels,
                       kcoords := List.replicate rec.numChannels 1,
                       xc := rec.channelLocations.map Prod.fst,
                       yc := rec.channelLocations.map Prod.snd },
            dir_path := output_folder, n_channels := rec.numChannels,
            dtype := rec.dtype, sample_rate := rec.samplingFrequency },
          ?_, rfl, rfl, rfl, rfl, rfl⟩
  unfold _run_from_folder load_extractor
  rw [hload]
  simp [hbin, hseg, hpaths]

/-- Claim C5 witness: on the two-channel demo recording with locations
(0,0) and (0,20), the invocation hook reaches the run call with the probe
descriptor built exactly from those fields. -/
theorem c5_probe_descriptor_fields_witness :
    ∃ call : RunCall Nat,
      _run_from_folder rootJsonFs ("out") (0 : Nat) = Except.ok call ∧
      call.probe.NchanTOT = demoRecording.numChannels ∧
      call.probe.chanMap = List.range demoRecording.numChannels ∧
      call.probe.xc = demoRecording.channelLocations.map Prod.fst ∧
      call.probe.yc = demoRecording.channelLocations.map Prod.snd ∧
      call.probe.kcoords = List.replicate demoRecording.numChannels 1 :=
  c5_probe_descriptor_fields rootJsonFs ("out") 0 demoRecording
    ("out/bin_folder/traces_cached_seg0.raw") [] rfl rfl rfl rfl rfl

/-- Claim C6: the parameter-validation hook is the identity on the
parameter mapping for every recording, output folder and mapping. -/
theorem c6_check_params_identity {ρ φ π : Type}
    (recording : ρ) (output_folder : φ) (params : π) :
    _check_params recording output_folder params = params :=
  rfl

/-- Claim C7: when pykilosort is not importable at module import time, the
availability check returns false and the version query fails with the
NameError produced by the unbound `pykilosort` name (the absent import left
it unbound), rather than returning a placeholder value. -/
theorem c7_unavailable_dependency (env : Env)
    (h : env.pykilosortImportable = false) :
    is_installed (moduleInit env) = false ∧
    get_sorter_version (moduleInit env) =
      Except.error (PyError.nameError ("pykilosort")) := by
  simp [is_installed, get_sorter_version, moduleInit, h]

/-- Claim C7 witness: instantiated at an environment where the import
fails. -/
theorem c7_unavailable_dependency_witness :
    is_installed (moduleInit { pykilosortImportable := false, pykilosortVersion := "1.4.0" }) = false ∧
    get_sorter_version (moduleInit { pykilosortImportable := false, pykilosortVersion := "1.4.0" }) =
      Except.error (PyError.nameError ("pykilosort")) :=
  c7_unavailable_dependency { pykilosortImportable := false, pykilosortVersion := "1.4.0" } rfl

/-- Claim C8 (counterexample): the availability check is not a call-time
probe. With pykilosort not importable at module import and importable at
call time, the check still answers false — the module state computed
at module load decides — while a call-time capability probe (the spec's words)
answers true. -/
theorem c8_availability_is_cached_counterexample :
    is_installed (moduleInit { pykilosortImportable := false, pykilosortVersion := "1.4.0" }) = false ∧
    is_installed_spec { pykilosortImportable := true, pykilosortVersion := "1.4.0" } = true ∧
    is_installed (moduleInit { pykilosortImportable := false, pykilosortVersion := "1.4.0" }) ≠
      is_installed_spec { pykilosortImportable := true, pykilosortVersion := "1.4.0" } :=
  ⟨rfl, rfl, by decide⟩

/-- Claim C8 (amended): the availability check returns the HAVE_PYKILOSORT
flag computed once by the try/except block at module load time; it consults
nothing but that module state, so its answer is determined by the load-time
environment alone and an environment change after module load is not
observed. -/
theorem c8_availability_from_import_time (envAtImport : Env) :
    is_installed (moduleInit envAtImport) = envAtImport.pykilosortImportable := by
  cases h : envAtImport.pykilosortImportable <;> simp [is_installed, moduleInit, h]

/-- Claim C9: for a single-segment recording with a probe attached, the
input-staging hook persists the recording into the fixed-name subfolder
`bin_folder` of the output directory, as one contiguous binary file of
exactly channel_count x sample_count x dtype_width bytes next to the
serialized recording description. -/
theorem c9_staging_binary_copy (rec : Recording) (p : Probe) (output_folder : String)
    (hseg : rec.numSegments = 1) (hprobe : rec.probe = some p) :
    _setup_recording rec output_folder =
      Except.ok
        { folder := pathJoin output_folder ("bin_folder"),
          binSizeBytes := rec.numChannels * rec.numSamples * rec.dtypeWidth,
          descriptionName := "spikeinterface_recording.json" } := by
  simp [_setup_recording, Recording.get_probe, Recording.save, hprobe]

/-- Claim C9 witness: the demo recording (2 channels, 1000 samples, 2-byte
dtype) is staged into `out/bin_folder` as a binary copy of
2 x 1000 x 2 bytes. -/
theorem c9_staging_binary_copy_witness :
    demoRecording.numSegments = 1 ∧
    _setup_recording demoRecording ("out") =
      Except.ok
        { folder := pathJoin ("out") ("bin_folder"),
          binSizeBytes := demoRecording.numChannels * demoRecording.numSamples * demoRecording.dtypeWidth,
          descriptionName := "spikeinterface_recording.json" } :=
  ⟨rfl, c9_staging_binary_copy demoRecording Probe.mk ("out") rfl rfl⟩

/-- Claim C10: the input-staging hook calls get_probe() first and discards
the result, so for every recording without an attached probe staging fails
with the probe error before any file is written (the error result carries
no staged binary copy), even though the adapter declares
requires_locations = False. -/
theorem c10_setup_requires_probe (rec : Recording) (output_folder : String)
    (h : rec.probe = none) :
    _setup_recording rec output_folder =
      Except.error (PyError.valueError ("no probe attached")) ∧
    requires_locations = false := by
  constructor
  · simp [_setup_recording, Recording.get_probe, h]
  · rfl

/-- Claim C10 witness: staging the probeless demo recording fails with the
probe error while requires_locations is False. -/
theorem c10_setup_requires_probe_witness :
    _setup_recording probelessRecording ("out") =
      Except.error (PyError.valueError ("no probe attached")) ∧
    requires_locations = false :=
  c10_setup_requires_probe probelessRecording ("out") rfl
